import Mathlib

/-!
Shallow embedding of `examples/create_test_pair.py`, the fixture generator of
the pptx-review repository.  The script builds two concrete PowerPoint decks
("old" and "new") through the python-pptx API and saves each to a file.  We
model a deck as its logical content (document metadata plus an ordered list of
slides, each with a layout index, title, ordered body paragraphs and optional
speaker notes), and each python-pptx call the script performs as an operation
on that content.  Saving is modelled as producing an artifact that pairs the
logical content with an environment-supplied package timestamp, so the claims
that exclude timestamps from the contract can be stated.
-/

/-- One slide's logical content: the layout index passed to `add_slide`, the
title placeholder text, the ordered body paragraphs of the content/subtitle
placeholder, and the optional speaker-notes text. -/
structure Slide where
  layout : Nat
  title : String
  body : List String
  notes : Option String
deriving DecidableEq, Repr

/-- A deck's logical content: `core_properties.title`, `core_properties.author`
and the ordered slides. -/
structure Deck where
  coreTitle : String
  coreAuthor : String
  slides : List Slide
deriving DecidableEq, Repr

/-- `Presentation()`: an empty deck (no slides, empty core properties). -/
def newPresentation : Deck :=
  { coreTitle := "", coreAuthor := "", slides := [] }

/-- `prs.core_properties.title = s`. -/
def setCoreTitle (d : Deck) (s : String) : Deck :=
  { d with coreTitle := s }

/-- `prs.core_properties.author = s`. -/
def setCoreAuthor (d : Deck) (s : String) : Deck :=
  { d with coreAuthor := s }

/-- Apply `f` to the most recently added slide (the script only ever mutates
the slide it just appended). -/
def modifyLastSlide (d : Deck) (f : Slide → Slide) : Deck :=
  { d with slides := d.slides.dropLast ++ (d.slides.getLast?.map f).toList }

/-- `prs.slides.add_slide(prs.slide_layouts[i])`: append a blank slide using
layout `i`. -/
def addSlide (d : Deck) (i : Nat) : Deck :=
  { d with slides := d.slides ++ [{ layout := i, title := "", body := [], notes := none }] }

/-- `slide.shapes.title.text = s` on the just-added slide. -/
def setSlideTitle (d : Deck) (s : String) : Deck :=
  modifyLastSlide d (fun sl => { sl with title := s })

/-- `slide.placeholders[1].text = s` (equivalently `tf.text = s` on the body
placeholder's text frame): replace the placeholder content with the single
paragraph `s`. -/
def setBodyText (d : Deck) (s : String) : Deck :=
  modifyLastSlide d (fun sl => { sl with body := [s] })

/-- `p = tf.add_paragraph(); p.text = s`: append one body paragraph. -/
def addBodyParagraph (d : Deck) (s : String) : Deck :=
  modifyLastSlide d (fun sl => { sl with body := sl.body ++ [s] })

/-- `notes_slide.notes_text_frame.text = s`: set the slide's speaker notes. -/
def setNotesText (d : Deck) (s : String) : Deck :=
  modifyLastSlide d (fun sl => { sl with notes := some s })

/-- The logical content assembled by `create_old()` before `prs.save`, call by
call. -/
def create_old_deck : Deck :=
  let prs := newPresentation
  let prs := setCoreTitle prs "Research Study"
  let prs := setCoreAuthor prs "Dr. Smith"
  -- Slide 1: Title Slide
  let prs := addSlide prs 0
  let prs := setSlideTitle prs "Neuroimaging Study of Brain Connectivity"
  let prs := setBodyText prs "Dr. Smith, Department of Neuroscience"
  let prs := setNotesText prs "Welcome everyone. Today I\x27ll present our findings on brain connectivity."
  -- Slide 2: Methods
  let prs := addSlide prs 1
  let prs := setSlideTitle prs "Methods"
  let prs := setBodyText prs "Participants: 50 healthy adults (25M/25F)"
  let prs := addBodyParagraph prs "MRI Protocol: 3T Siemens scanner"
  let prs := addBodyParagraph prs "Analysis: FSL and FreeSurfer pipelines"
  let prs := setNotesText prs "Methods slide - explain recruitment criteria"
  -- Slide 3: Results
  let prs := addSlide prs 1
  let prs := setSlideTitle prs "Results"
  let prs := setBodyText prs "Significant connectivity differences in DMN (p<0.01)"
  let prs := addBodyParagraph prs "Correlation with cognitive scores: r=0.45"
  let prs := addBodyParagraph prs "No significant age effects observed"
  let prs := setNotesText prs "Key finding: DMN connectivity is altered"
  -- Slide 4: Discussion
  let prs := addSlide prs 1
  let prs := setSlideTitle prs "Discussion"
  let prs := setBodyText prs "Findings consistent with prior literature"
  let prs := addBodyParagraph prs "Novel contribution: whole-brain analysis approach"
  let prs := addBodyParagraph prs "Clinical implications for early diagnosis"
  let prs := setNotesText prs "Discuss limitations and future directions"
  prs

/-- The logical content assembled by `create_new()` before `prs.save`, call by
call. -/
def create_new_deck : Deck :=
  let prs := newPresentation
  let prs := setCoreTitle prs "Research Study - Revised"
  let prs := setCoreAuthor prs "Dr. Smith"
  -- Slide 1: Title Slide (same structure, different notes)
  let prs := addSlide prs 0
  let prs := setSlideTitle prs "Neuroimaging Study of Brain Connectivity"
  let prs := setBodyText prs "Dr. Smith, Department of Neuroscience"
  let prs := setNotesText prs "Welcome. Today I\x27ll present our UPDATED findings on brain connectivity patterns."
  -- Slide 2: Methods (modified text)
  let prs := addSlide prs 1
  let prs := setSlideTitle prs "Methods"
  let prs := setBodyText prs "Participants: 75 healthy adults (38M/37F)"
  let prs := addBodyParagraph prs "MRI Protocol: 3T Siemens Prisma scanner"
  let prs := addBodyParagraph prs "Analysis: FSL, FreeSurfer, and CONN toolbox"
  let prs := setNotesText prs "Methods slide - explain recruitment criteria"
  -- Slide 3: Results (same as before)
  let prs := addSlide prs 1
  let prs := setSlideTitle prs "Results"
  let prs := setBodyText prs "Significant connectivity differences in DMN (p<0.01)"
  let prs := addBodyParagraph prs "Correlation with cognitive scores: r=0.45"
  let prs := addBodyParagraph prs "No significant age effects observed"
  let prs := setNotesText prs "Key finding: DMN connectivity is altered"
  -- Slide 4 (Discussion) is DELETED from the new version
  -- Slide 4 (was 5): Limitations - NEW slide
  let prs := addSlide prs 1
  let prs := setSlideTitle prs "Limitations"
  let prs := setBodyText prs "Cross-sectional design limits causal inference"
  let prs := addBodyParagraph prs "Sample size may be insufficient for subgroup analyses"
  let prs := addBodyParagraph prs "Single-site study limits generalizability"
  let prs := setNotesText prs "Be honest about limitations - reviewers will ask"
  prs

/-- A persisted package: the deck's logical content together with the package
timestamp the external authoring library stamps at save time.  The timestamp
is supplied by the environment, not by the script. -/
structure Artifact where
  content : Deck
  packageTimestamp : Nat
deriving DecidableEq, Repr

/-- `prs.save(path)` at environment time `ts`: the artifact written. -/
def save (d : Deck) (ts : Nat) : Artifact :=
  { content := d, packageTimestamp := ts }

/-- `create_old()` run at environment time `ts`: the single write it performs,
as the pair (output path, artifact). -/
def create_old_run (ts : Nat) : String × Artifact :=
  ("test_old.pptx", save create_old_deck ts)

/-- `create_new()` run at environment time `ts`: the single write it performs. -/
def create_new_run (ts : Nat) : String × Artifact :=
  ("test_new.pptx", save create_new_deck ts)

/-- The `__main__` block run at environment time `ts`: `create_old()` then
`create_new()`, yielding the ordered write trace of the whole run. -/
def runGenerator (ts : Nat) : List (String × Artifact) :=
  [create_old_run ts, create_new_run ts]

/-- The logical content of one run's artifacts: the write trace with the
package timestamps stripped. -/
def logicalContent (ts : Nat) : List (String × Deck) :=
  (runGenerator ts).map (fun w => (w.1, w.2.content))

/-- The ledger-relevant content fields of a slide: title, ordered body
paragraphs, notes. -/
def slideContent (s : Slide) : String × List String × Option String :=
  (s.title, s.body, s.notes)

/-- C1: the old deck contains exactly 4 slides and the new deck contains
exactly 4 slides; the slide titled "Discussion" sits at old position 4 and no
slide of the new deck carries that title, while a slide titled "Limitations"
sits at new position 4 (the removed slide's place) and no slide of the old
deck carries that title. -/
theorem c1_slide_counts_and_swap :
    create_old_deck.slides.length = 4 ∧
    create_new_deck.slides.length = 4 ∧
    (create_old_deck.slides.map Slide.title)[3]? = some "Discussion" ∧
    (∀ s ∈ create_new_deck.slides, s.title ≠ "Discussion") ∧
    (create_new_deck.slides.map Slide.title)[3]? = some "Limitations" ∧
    (∀ s ∈ create_old_deck.slides, s.title ≠ "Limitations") := by
  decide

/-- C2: the Results slide (position 3, index 2, in both variants) is equal
field-for-field across the two decks: title, ordered body paragraph sequence
and notes each coincide. -/
theorem c2_results_slide_field_for_field :
    (create_old_deck.slides[2]?).map Slide.title = (create_new_deck.slides[2]?).map Slide.title ∧
    (create_old_deck.slides[2]?).map Slide.body = (create_new_deck.slides[2]?).map Slide.body ∧
    (create_old_deck.slides[2]?).map Slide.notes = (create_new_deck.slides[2]?).map Slide.notes ∧
    (create_old_deck.slides[2]?).map Slide.title = some "Results" := by
  decide

/-- C3: old slide 2 has first body paragraph exactly
"Participants: 50 healthy adults (25M/25F)" and new slide 2 has first body
paragraph exactly "Participants: 75 healthy adults (38M/37F)"; the slide
(titled "Methods") exists in both variants, and its remaining body paragraphs
are also edited between them. -/
theorem c3_methods_first_paragraph_edited :
    ((create_old_deck.slides[1]?).bind (fun s => s.body[0]?)) =
      some "Participants: 50 healthy adults (25M/25F)" ∧
    ((create_new_deck.slides[1]?).bind (fun s => s.body[0]?)) =
      some "Participants: 75 healthy adults (38M/37F)" ∧
    (create_old_deck.slides[1]?).map Slide.title = some "Methods" ∧
    (create_new_deck.slides[1]?).map Slide.title = some "Methods" ∧
    ((create_old_deck.slides[1]?).bind (fun s => s.body[1]?)).isSome = true ∧
    ((create_new_deck.slides[1]?).bind (fun s => s.body[1]?)).isSome = true ∧
    ((create_old_deck.slides[1]?).bind (fun s => s.body[1]?)) ≠
      ((create_new_deck.slides[1]?).bind (fun s => s.body[1]?)) ∧
    ((create_old_deck.slides[1]?).bind (fun s => s.body[2]?)).isSome = true ∧
    ((create_new_deck.slides[1]?).bind (fun s => s.body[2]?)).isSome = true ∧
    ((create_old_deck.slides[1]?).bind (fun s => s.body[2]?)) ≠
      ((create_new_deck.slides[1]?).bind (fun s => s.body[2]?)) := by
  decide

/-- C4: the old deck's document metadata title is exactly "Research Study",
the new deck's is exactly "Research Study - Revised", and the author metadata
field is equal across the two decks. -/
theorem c4_metadata_title_only_change :
    create_old_deck.coreTitle = "Research Study" ∧
    create_new_deck.coreTitle = "Research Study - Revised" ∧
    create_old_deck.coreAuthor = create_new_deck.coreAuthor := by
  decide

/-- C5: for slide 1 (the Title slide) only the speaker notes differ between
variants: the title text, the body/subtitle placeholder text and the slide's
layout are equal across the old and new decks, the slide exists in both, and
the notes differ. -/
theorem c5_title_slide_notes_only_change :
    (create_old_deck.slides[0]?).map Slide.title = (create_new_deck.slides[0]?).map Slide.title ∧
    (create_old_deck.slides[0]?).map Slide.body = (create_new_deck.slides[0]?).map Slide.body ∧
    (create_old_deck.slides[0]?).map Slide.layout = (create_new_deck.slides[0]?).map Slide.layout ∧
    (create_old_deck.slides[0]?).isSome = true ∧
    (create_new_deck.slides[0]?).isSome = true ∧
    (create_old_deck.slides[0]?).map Slide.notes ≠ (create_new_deck.slides[0]?).map Slide.notes := by
  decide

/-- C6: deck construction is deterministic: two runs of the generator, at any
two environment timestamps, produce artifacts whose logical content (output
path, metadata title and author, slide order, each slide's title, ordered
body paragraphs and notes) is identical; the package timestamps are stripped
by `logicalContent` and so excluded from the equality. -/
theorem c6_generator_deterministic (ts1 ts2 : Nat) :
    logicalContent ts1 = logicalContent ts2 := rfl

/-- C6 witness: two concrete runs (timestamps 0 and 1) agree on logical
content. -/
theorem c6_generator_deterministic_witness :
    logicalContent 0 = logicalContent 1 :=
  c6_generator_deterministic 0 1

/-- C7: every slide of the old deck and every slide of the new deck carries a
non-empty title. -/
theorem c7_titles_nonempty :
    (∀ s ∈ create_old_deck.slides, s.title ≠ "") ∧
    (∀ s ∈ create_new_deck.slides, s.title ≠ "") := by
  decide

/-- C8: in one run of the generator, the old artifact path and the new
artifact path are each written exactly once, and no other location is
written. -/
theorem c8_each_output_written_once (ts : Nat) :
    ((runGenerator ts).map Prod.fst).count "test_old.pptx" = 1 ∧
    ((runGenerator ts).map Prod.fst).count "test_new.pptx" = 1 ∧
    ∀ p ∈ (runGenerator ts).map Prod.fst, p = "test_old.pptx" ∨ p = "test_new.pptx" := by
  rw [show (runGenerator ts).map Prod.fst = ["test_old.pptx", "test_new.pptx"] from rfl]
  decide

/-- C8 witness: the write-once property at the concrete run with timestamp 0. -/
theorem c8_each_output_written_once_witness :
    ((runGenerator 0).map Prod.fst).count "test_old.pptx" = 1 ∧
    ((runGenerator 0).map Prod.fst).count "test_new.pptx" = 1 ∧
    ∀ p ∈ (runGenerator 0).map Prod.fst, p = "test_old.pptx" ∨ p = "test_new.pptx" :=
  c8_each_output_written_once 0

/-- C9: for the Methods slide (position 2, index 1, in both variants) the
modification is confined to the body paragraphs: the title and the notes are
equal across the decks, the notes are exactly
"Methods slide - explain recruitment criteria" in both, and the body
paragraph sequences differ. -/
theorem c9_methods_change_confined_to_body :
    (create_old_deck.slides[1]?).map Slide.title = (create_new_deck.slides[1]?).map Slide.title ∧
    (create_old_deck.slides[1]?).map Slide.notes =
      some (some "Methods slide - explain recruitment criteria") ∧
    (create_new_deck.slides[1]?).map Slide.notes =
      some (some "Methods slide - explain recruitment criteria") ∧
    (create_old_deck.slides[1]?).map Slide.body ≠ (create_new_deck.slides[1]?).map Slide.body := by
  decide

/-- C10: every slide of both decks has speaker notes set to a non-empty
string: no slide in either variant has absent or empty notes. -/
theorem c10_all_slides_have_nonempty_notes :
    ∀ s ∈ create_old_deck.slides ++ create_new_deck.slides,
      s.notes ≠ none ∧ s.notes ≠ some "" := by
  decide

/-- C10 witness: the property at the concrete first slide of the old deck. -/
theorem c10_all_slides_have_nonempty_notes_witness :
    (⟨0, "Neuroimaging Study of Brain Connectivity",
        ["Dr. Smith, Department of Neuroscience"],
        some "Welcome everyone. Today I\x27ll present our findings on brain connectivity."⟩ : Slide) ∈
      create_old_deck.slides ++ create_new_deck.slides ∧
    ((⟨0, "Neuroimaging Study of Brain Connectivity",
        ["Dr. Smith, Department of Neuroscience"],
        some "Welcome everyone. Today I\x27ll present our findings on brain connectivity."⟩ : Slide).notes ≠ none ∧
     (⟨0, "Neuroimaging Study of Brain Connectivity",
        ["Dr. Smith, Department of Neuroscience"],
        some "Welcome everyone. Today I\x27ll present our findings on brain connectivity."⟩ : Slide).notes ≠ some "") :=
  ⟨by decide, c10_all_slides_have_nonempty_notes _ (by decide)⟩
